import Mathlib

/-!
Verification of the telemetry submission core of the appinsights library.

The transmitter (`src/appinsights/src/transmitter.rs`) is embedded as a pure
function over an abstract view of the HTTP exchange: the network either fails
or yields a response consisting of a status code, an optional Retry-After
header value, and the result of JSON-decoding the body into a `Transmission`.
Rust `?`-propagation is modelled by the `SendResult.err` constructor, and a
process panic (out-of-bounds `Vec::remove` / `usize` underflow) by
`SendResult.crash`.

The in-memory channel facade and its supervisor
(`src/appinsights/src/channel/memory.rs`) are embedded as explicit state:
the channel record tracks the queue contents, the mutex-held command sender
(with its poison flag), the shutdown one-shot, the join handle, and the trace
of commands pushed into the command channel; the supervisor restart loop
becomes a step function on a state that tracks the generation of the sender
stored in the mutex and the generation of the receiver held by the live
worker.
-/

namespace AppInsights

/-- Modelled from the spec: the envelope record with fields
name, time, instrumentation key, tags and data (section 3 of the spec);
the concrete `Envelope` contract type is not part of the analysed sources.
The transmitter treats it as an opaque JSON-serializable value. -/
structure Envelope where
  name : String
  time : String
  iKey : String
  tags : List (String × String)
  data : String
deriving DecidableEq, Repr, Inhabited

/-- Modelled from the spec: one entry of the `errors` array of a server
status body, with fields index, statusCode and message (section 6 of the
spec); the concrete contract type is not part of the analysed sources. -/
structure TransmissionItem where
  index : Nat
  statusCode : Nat
  message : String
deriving DecidableEq, Repr

/-- Modelled from the spec: the server status body
with fields itemsAccepted, itemsReceived and errors (section 6 of the
spec); the concrete contract type is not part of the analysed sources. -/
structure Transmission where
  itemsAccepted : Nat
  itemsReceived : Nat
  errors : List TransmissionItem
deriving DecidableEq, Repr

/-- The transmitter outcome, from `enum Response` in transmitter.rs.
`Throttled` carries the parsed Retry-After instant, modelled as an
integer timestamp. -/
inductive Response where
  | Success : Response
  | Retry : List Envelope → Response
  | Throttled : Int → List Envelope → Response
  | NoRetry : Response
deriving DecidableEq, Repr

/-- Direct translation of `can_retry_item` in transmitter.rs: the status
codes 206, 408, 500, 503 and 429. -/
def can_retry_item (item : TransmissionItem) : Bool :=
  item.statusCode = 206 || item.statusCode = 408 || item.statusCode = 500
    || item.statusCode = 503 || item.statusCode = 429

/-- Rust `usize` subtraction as used in `error.index - retry_items.len()`:
underflow aborts the process (debug builds panic; release builds wrap and
the subsequent `Vec::remove` then panics out of bounds), modelled as
`none`. -/
def usizeSub (a b : Nat) : Option Nat :=
  if b ≤ a then some (a - b) else none

/-- Rust `Vec::remove(i)`: returns the removed element together with the
remaining vector, or `none` when the index is out of bounds (a panic in
Rust). -/
def vecRemove {α : Type} : List α → Nat → Option (α × List α)
  | [], _ => none
  | x :: xs, 0 => some (x, xs)
  | x :: xs, i + 1 =>
    match vecRemove xs i with
    | none => none
    | some (y, rest) => some (y, x :: rest)

/-- The loop body of `retain_retry_items`: walk the retryable errors,
removing `items[error.index - retry.length]` and appending it to the
accumulator. `none` models a panic. -/
def retainGo : List TransmissionItem → List Envelope → List Envelope → Option (List Envelope)
  | [], _, retry => some retry
  | e :: es, items, retry =>
    match usizeSub e.index retry.length with
    | none => none
    | some pos =>
      match vecRemove items pos with
      | none => none
      | some (y, rest) => retainGo es rest (retry ++ [y])

/-- Direct translation of `retain_retry_items` in transmitter.rs: iterate
the errors that satisfy `can_retry_item`, moving the item at adjusted
position `index - retry_items.len()` into the retry list, which replaces
the batch. `none` models a panic. -/
def retain_retry_items (items : List Envelope) (content : Transmission) :
    Option (List Envelope) :=
  retainGo (content.errors.filter can_retry_item) items []

/-- Abstract view of an HTTP response as the transmitter consumes it:
the status code, the optional Retry-After header value, and the result of
reading and JSON-decoding the body into a `Transmission` (`none` covers
both body-read failures and parse failures). -/
structure HttpResponse where
  status : Nat
  retryAfter : Option String
  jsonBody : Option Transmission
deriving DecidableEq, Repr

/-- Outcome of the network send: either the request failed at the network
level or a response arrived. -/
inductive NetResult where
  | failure : NetResult
  | response : HttpResponse → NetResult
deriving DecidableEq, Repr

/-- The `?`-propagated error paths inside `Transmitter::send`: the network
send (`.send().await?`), the 206 body decode (`response.json().await?`),
and the Retry-After header handling (`to_str()?` /
`parse_from_rfc2822(..)?`). -/
inductive SendError where
  | network : SendError
  | body : SendError
  | header : SendError
deriving DecidableEq, Repr

/-- Result of `Transmitter::send` as observed by its caller: a `Response`
wrapped in `Ok`, a propagated error, or a process panic inside
`retain_retry_items`. -/
inductive SendResult where
  | ok : Response → SendResult
  | err : SendError → SendResult
  | crash : SendResult
deriving DecidableEq, Repr

/-- Direct translation of `Transmitter::send` in transmitter.rs.
`parseRfc2822` abstracts `DateTime::parse_from_rfc2822` (together with the
header `to_str` conversion, both of which propagate failure with `?`). -/
def Transmitter.send (parseRfc2822 : String → Option Int)
    (items : List Envelope) (net : NetResult) : SendResult :=
  match net with
  | .failure => .err .network
  | .response r =>
    if r.status = 200 then .ok .Success
    else if r.status = 206 then
      match r.jsonBody with
      | none => .err .body
      | some content =>
        if content.itemsReceived = content.itemsAccepted then .ok .Success
        else
          match retain_retry_items items content with
          | none => .crash
          | some retained =>
            if retained.isEmpty then .ok .NoRetry else .ok (.Retry retained)
    else if r.status = 429 ∨ r.status = 408 then
      match (match r.jsonBody with
             | some content => retain_retry_items items content
             | none => some items) with
      | none => .crash
      | some remaining =>
        match r.retryAfter with
        | some hv =>
          match parseRfc2822 hv with
          | some t => .ok (.Throttled t remaining)
          | none => .err .header
        | none => .ok (.Retry remaining)
    else if r.status = 503 then .ok (.Retry items)
    else if r.status = 500 then
      match r.jsonBody with
      | none => .ok (.Retry items)
      | some content =>
        match retain_retry_items items content with
        | none => .crash
        | some retained =>
          if retained.isEmpty then .ok .NoRetry else .ok (.Retry retained)
    else .ok .NoRetry

/-- The subset of the batch the spec says a partial response retains: the
envelopes sitting at the `index` positions of the retryable errors, taken
in the order the errors appear. This is the specification-side description
against which `retain_retry_items` is compared. -/
def retrySpec (items : List Envelope) (errors : List TransmissionItem) :
    List Envelope :=
  (errors.filter can_retry_item).filterMap (fun e => items[e.index]?)

/-- Sample envelope used in concrete evaluations. -/
def env0 : Envelope := { name := "event 0", time := "", iKey := "", tags := [], data := "" }

/-- Second sample envelope. -/
def env1 : Envelope := { name := "event 1", time := "", iKey := "", tags := [], data := "" }

/-- Third sample envelope. -/
def env2 : Envelope := { name := "event 2", time := "", iKey := "", tags := [], data := "" }

/-- Fourth sample envelope. -/
def env3 : Envelope := { name := "event 3", time := "", iKey := "", tags := [], data := "" }

/-- Fifth sample envelope. -/
def env4 : Envelope := { name := "event 4", time := "", iKey := "", tags := [], data := "" }

/-- A five element batch mirroring the transmitter test fixture. -/
def wItems : List Envelope := [env0, env1, env2, env3, env4]

/-- A partial-response body mirroring the `partial_some_retries` test
fixture: two of five accepted, a non-retryable error at index 2 and a
retryable one at index 4. -/
def wContent : Transmission :=
  { itemsAccepted := 2, itemsReceived := 5,
    errors := [{ index := 2, statusCode := 400, message := "Bad 1" },
               { index := 4, statusCode := 408, message := "OK Later" }] }

/-- A Retry-After parser used in concrete evaluations: accepts exactly the
string "good" as instant 7. -/
def wParse : String → Option Int :=
  fun s => if s = "good" then some 7 else none

/-- C1 counterexample: when the network send fails, `Transmitter::send`
propagates the error to its caller instead of returning `Retry` with the
full batch. -/
theorem send_network_error_cex :
    Transmitter.send (fun _ => none) [env0] NetResult.failure = SendResult.err SendError.network
    ∧ Transmitter.send (fun _ => none) [env0] NetResult.failure
        ≠ SendResult.ok (Response.Retry [env0]) := by
  exact ⟨rfl, by decide⟩

/-- C1 (amended): a network-level failure and an unreadable or malformed
206 body surface as propagated errors to the caller of `Transmitter::send`;
only a malformed 500 body yields `Retry` of the full batch. -/
theorem send_error_propagation (parseRfc2822 : String → Option Int)
    (items : List Envelope) (hv : Option String) :
    Transmitter.send parseRfc2822 items NetResult.failure = SendResult.err SendError.network
    ∧ Transmitter.send parseRfc2822 items
        (NetResult.response { status := 206, retryAfter := hv, jsonBody := none })
        = SendResult.err SendError.body
    ∧ Transmitter.send parseRfc2822 items
        (NetResult.response { status := 500, retryAfter := hv, jsonBody := none })
        = SendResult.ok (Response.Retry items) := by
  refine ⟨rfl, ?_, ?_⟩ <;> simp [Transmitter.send]

/-- C3 counterexample: a 206 response whose body cannot be decoded is not
treated as `Success`; the decode failure propagates as an error. -/
theorem send_partial_parse_failure_cex :
    Transmitter.send (fun _ => none) [env0]
        (NetResult.response { status := 206, retryAfter := none, jsonBody := none })
        ≠ SendResult.ok Response.Success
    ∧ Transmitter.send (fun _ => none) [env0]
        (NetResult.response { status := 206, retryAfter := none, jsonBody := none })
        = SendResult.err SendError.body := by
  decide

/-- C3 (amended): a 206 response with an undecodable body propagates a body
error to the caller, while a 500 response with an undecodable body yields
`Retry` of the full batch. -/
theorem send_malformed_body_behavior (parseRfc2822 : String → Option Int)
    (items : List Envelope) (hv : Option String) :
    Transmitter.send parseRfc2822 items
        (NetResult.response { status := 206, retryAfter := hv, jsonBody := none })
        = SendResult.err SendError.body
    ∧ Transmitter.send parseRfc2822 items
        (NetResult.response { status := 500, retryAfter := hv, jsonBody := none })
        = SendResult.ok (Response.Retry items) := by
  constructor <;> simp [Transmitter.send]

/-- C4 counterexample: on a 429 response carrying a malformed Retry-After
value, `Transmitter::send` propagates a header error instead of falling
back to a schedule-driven `Retry`. -/
theorem send_retry_after_malformed_cex :
    Transmitter.send (fun _ => none) [env0]
        (NetResult.response { status := 429, retryAfter := some "bad", jsonBody := none })
        = SendResult.err SendError.header
    ∧ Transmitter.send (fun _ => none) [env0]
        (NetResult.response { status := 429, retryAfter := some "bad", jsonBody := none })
        ≠ SendResult.ok (Response.Retry [env0]) := by
  decide

/-- C4 (amended): on 408 and 429, the remaining batch is the body-filtered
subset when the body decodes and the full batch otherwise; a present
Retry-After value that parses as RFC 2822 yields `Throttled` of that
instant and the remaining batch, an absent header yields `Retry` of the
remaining batch, and a malformed header value propagates an error to the
caller. -/
theorem send_throttle_behavior (parseRfc2822 : String → Option Int)
    (items remaining : List Envelope) (st : Nat) (body : Option Transmission)
    (hst : st = 408 ∨ st = 429)
    (hrem : (match body with
             | some content => retain_retry_items items content
             | none => some items) = some remaining) :
    (∀ hv t, parseRfc2822 hv = some t →
       Transmitter.send parseRfc2822 items
           (NetResult.response { status := st, retryAfter := some hv, jsonBody := body })
           = SendResult.ok (Response.Throttled t remaining))
    ∧ Transmitter.send parseRfc2822 items
          (NetResult.response { status := st, retryAfter := none, jsonBody := body })
          = SendResult.ok (Response.Retry remaining)
    ∧ (∀ hv, parseRfc2822 hv = none →
       Transmitter.send parseRfc2822 items
           (NetResult.response { status := st, retryAfter := some hv, jsonBody := body })
           = SendResult.err SendError.header) := by
  rcases hst with h | h <;> subst h <;>
    exact ⟨fun hv t hp => by simp [Transmitter.send, hrem, hp],
           by simp [Transmitter.send, hrem],
           fun hv hp => by simp [Transmitter.send, hrem, hp]⟩

/-- C4 witness: concrete instance of `send_throttle_behavior` on a 429
response with no body and a parseable Retry-After value. -/
theorem send_throttle_behavior_witness :
    Transmitter.send wParse [env0]
        (NetResult.response { status := 429, retryAfter := some "good", jsonBody := none })
        = SendResult.ok (Response.Throttled 7 [env0]) :=
  (send_throttle_behavior wParse [env0] [env0] 429 none (Or.inr rfl) rfl).1
    "good" 7 (by decide)

/-- C5: a 206 response whose body reports as many accepted as received
items is a `Success`, whatever the errors array contains. -/
theorem send_partial_all_accepted (parseRfc2822 : String → Option Int)
    (items : List Envelope) (hv : Option String) (content : Transmission)
    (h : content.itemsAccepted = content.itemsReceived) :
    Transmitter.send parseRfc2822 items
        (NetResult.response { status := 206, retryAfter := hv, jsonBody := some content })
        = SendResult.ok Response.Success := by
  simp [Transmitter.send, h]

/-- A partial-response body with a non-empty errors array but with as many
accepted as received items. -/
def wAllAccepted : Transmission :=
  { itemsAccepted := 5, itemsReceived := 5,
    errors := [{ index := 0, statusCode := 500, message := "x" }] }

/-- C5 witness: `send_partial_all_accepted` applied to a body with a
non-empty errors array and accepted equal to received. -/
theorem send_partial_all_accepted_witness :
    wAllAccepted.errors ≠ []
    ∧ Transmitter.send (fun _ => none) wItems
        (NetResult.response { status := 206, retryAfter := none, jsonBody := some wAllAccepted })
        = SendResult.ok Response.Success :=
  ⟨by decide, send_partial_all_accepted (fun _ => none) wItems none wAllAccepted rfl⟩

/-- Removal at an in-bounds index succeeds. -/
theorem vecRemove_exists {α : Type} (l : List α) (i : Nat) (h : i < l.length) :
    ∃ y rest, vecRemove l i = some (y, rest) := by
  induction l generalizing i with
  | nil => simp at h
  | cons x xs ih =>
    cases i with
    | zero => exact ⟨x, xs, rfl⟩
    | succ i =>
      obtain ⟨y, rest, hy⟩ := ih i (by simpa using Nat.lt_of_succ_lt_succ h)
      exact ⟨y, x :: rest, by simp [vecRemove, hy]⟩

/-- Removal at an out-of-bounds index is a panic. -/
theorem vecRemove_none {α : Type} (l : List α) (i : Nat) (h : l.length ≤ i) :
    vecRemove l i = none := by
  induction l generalizing i with
  | nil => rfl
  | cons x xs ih =>
    cases i with
    | zero => simp at h
    | succ i => simp [vecRemove, ih i (by simpa using Nat.le_of_succ_le_succ h)]

/-- The element removed by `vecRemove` is the one at the removal index. -/
theorem vecRemove_fst {α : Type} (l : List α) (i : Nat) (y : α) (rest : List α)
    (h : vecRemove l i = some (y, rest)) : l[i]? = some y := by
  induction l generalizing i rest with
  | nil => simp [vecRemove] at h
  | cons x xs ih =>
    cases i with
    | zero =>
      simp [vecRemove] at h
      simp [h.1]
    | succ i =>
      cases hv : vecRemove xs i with
      | none => simp [vecRemove, hv] at h
      | some p =>
        obtain ⟨y', rest'⟩ := p
        simp [vecRemove, hv] at h
        obtain ⟨hy, _⟩ := h
        subst hy
        simpa using ih i rest' hv

/-- Removal shortens the list by exactly one element. -/
theorem vecRemove_length {α : Type} (l : List α) (i : Nat) (y : α) (rest : List α)
    (h : vecRemove l i = some (y, rest)) : rest.length + 1 = l.length := by
  induction l generalizing i rest with
  | nil => simp [vecRemove] at h
  | cons x xs ih =>
    cases i with
    | zero =>
      simp [vecRemove] at h
      simp [h.2.symm]
    | succ i =>
      cases hv : vecRemove xs i with
      | none => simp [vecRemove, hv] at h
      | some p =>
        obtain ⟨y', rest'⟩ := p
        simp [vecRemove, hv] at h
        obtain ⟨rfl, rfl⟩ := h
        simpa using ih i rest' hv

/-- Positions at or after the removal index shift down by one. -/
theorem vecRemove_getElem_ge {α : Type} (l : List α) (i j : Nat) (y : α) (rest : List α)
    (h : vecRemove l i = some (y, rest)) (hij : i ≤ j) : rest[j]? = l[j + 1]? := by
  induction l generalizing i j rest with
  | nil => simp [vecRemove] at h
  | cons x xs ih =>
    cases i with
    | zero =>
      simp [vecRemove] at h
      obtain ⟨_, hrest⟩ := h
      subst hrest
      simp
    | succ i =>
      cases j with
      | zero => omega
      | succ j =>
        cases hv : vecRemove xs i with
        | none => simp [vecRemove, hv] at h
        | some p =>
          obtain ⟨y', rest'⟩ := p
          simp [vecRemove, hv] at h
          obtain ⟨rfl, rfl⟩ := h
          simpa using ih i j rest' hv (Nat.le_of_succ_le_succ hij)

/-- Core refinement of the reconciliation loop: when the pending error
indices are strictly increasing and their adjusted positions are in
bounds, the loop completes and returns the accumulator followed by the
elements of the current batch at the adjusted positions. -/
theorem retainGo_eq (es : List TransmissionItem) (cur retry : List Envelope)
    (hsorted : es.Pairwise (fun a b => a.index < b.index))
    (hlo : ∀ e ∈ es, retry.length ≤ e.index)
    (hhi : ∀ e ∈ es, e.index - retry.length < cur.length) :
    retainGo es cur retry =
      some (retry ++ es.filterMap (fun e => cur[e.index - retry.length]?)) := by
  induction es generalizing cur retry with
  | nil => simp [retainGo]
  | cons e es ih =>
    have h1 : retry.length ≤ e.index := hlo e (List.mem_cons_self e es)
    have h2 : e.index - retry.length < cur.length := hhi e (List.mem_cons_self e es)
    obtain ⟨y, rest, hrm⟩ := vecRemove_exists cur _ h2
    have hhead : ∀ e' ∈ es, e.index < e'.index := (List.pairwise_cons.mp hsorted).1
    have hlen : rest.length + 1 = cur.length := vecRemove_length _ _ _ _ hrm
    have step : retainGo (e :: es) cur retry = retainGo es rest (retry ++ [y]) := by
      simp [retainGo, usizeSub, h1, hrm]
    have hlo' : ∀ e' ∈ es, (retry ++ [y]).length ≤ e'.index := by
      intro e' he'
      have := hhead e' he'
      simp
      omega
    have hhi' : ∀ e' ∈ es, e'.index - (retry ++ [y]).length < rest.length := by
      intro e' he'
      have h3 := hhi e' (List.mem_cons_of_mem e he')
      have h4 := hhead e' he'
      simp
      omega
    rw [step, ih rest (retry ++ [y]) (List.pairwise_cons.mp hsorted).2 hlo' hhi']
    have hfst : cur[e.index - retry.length]? = some y := vecRemove_fst _ _ _ _ hrm
    have hcong : es.filterMap (fun e' => rest[e'.index - (retry ++ [y]).length]?)
        = es.filterMap (fun e' => cur[e'.index - retry.length]?) := by
      apply List.filterMap_congr
      intro e' he'
      have h4 := hhead e' he'
      have hlApp : (retry ++ [y]).length = retry.length + 1 := by simp
      rw [hlApp]
      have hge : e.index - retry.length ≤ e'.index - (retry.length + 1) := by omega
      rw [vecRemove_getElem_ge cur _ _ _ _ hrm hge]
      congr 1
      omega
    rw [hcong]
    simp [List.filterMap_cons, hfst, List.append_assoc]

/-- Under sorted in-bounds retryable indices, `retain_retry_items`
computes exactly the specification-side subset `retrySpec`. -/
theorem retain_eq_spec (items : List Envelope) (content : Transmission)
    (hsorted : (content.errors.filter can_retry_item).Pairwise (fun a b => a.index < b.index))
    (hbound : ∀ e ∈ content.errors.filter can_retry_item, e.index < items.length) :
    retain_retry_items items content = some (retrySpec items content.errors) := by
  have h := retainGo_eq (content.errors.filter can_retry_item) items [] hsorted
    (by intro e _; simp) (by intro e he; simpa using hbound e he)
  simpa [retain_retry_items, retrySpec] using h

/-- C2: on a 206 response whose body reports fewer accepted than received
items and carries well-formed (strictly index-ascending, in-bounds)
errors, the transmitter keeps exactly the envelopes at the retryable-error
indices, in original order, answering `NoRetry` when that subset is empty
and `Retry` of it otherwise. -/
theorem send_partial_reconciliation (parseRfc2822 : String → Option Int)
    (items : List Envelope) (hv : Option String) (content : Transmission)
    (hacc : content.itemsAccepted < content.itemsReceived)
    (hsorted : (content.errors.filter can_retry_item).Pairwise (fun a b => a.index < b.index))
    (hbound : ∀ e ∈ content.errors.filter can_retry_item, e.index < items.length) :
    Transmitter.send parseRfc2822 items
        (NetResult.response { status := 206, retryAfter := hv, jsonBody := some content })
        = if (retrySpec items content.errors).isEmpty then SendResult.ok Response.NoRetry
          else SendResult.ok (Response.Retry (retrySpec items content.errors)) := by
  have hne : ¬ (content.itemsReceived = content.itemsAccepted) := by omega
  simp [Transmitter.send, hne, retain_eq_spec items content hsorted hbound]

/-- C2 witness: `send_partial_reconciliation` on the five element test
batch with a non-retryable error at index 2 and a retryable one at
index 4. -/
theorem send_partial_reconciliation_witness :
    Transmitter.send (fun _ => none) wItems
        (NetResult.response { status := 206, retryAfter := none, jsonBody := some wContent })
        = if (retrySpec wItems wContent.errors).isEmpty then SendResult.ok Response.NoRetry
          else SendResult.ok (Response.Retry (retrySpec wItems wContent.errors)) :=
  send_partial_reconciliation (fun _ => none) wItems none wContent
    (by decide) (by decide) (by decide)

/-- A server body with a duplicated in-bounds error index, used to show
that not every malformed body makes `retain_retry_items` panic. -/
def wDupContent : Transmission :=
  { itemsAccepted := 0, itemsReceived := 3,
    errors := [{ index := 1, statusCode := 500, message := "a" },
               { index := 1, statusCode := 500, message := "b" }] }

/-- C9 counterexample: a body violating the well-formedness precondition
(a duplicate index) on which `retain_retry_items` does not panic: it
completes, returning envelopes that do not match the reported indices. -/
theorem retain_duplicate_index_cex :
    retain_retry_items [env0, env1, env2] wDupContent = some [env1, env0] := by
  decide

/-- C9 (amended): `retain_retry_items` is total when the retryable error
indices are strictly increasing and in bounds; an out-of-bounds index
panics (for instance any single retryable error whose index reaches the
batch length); but not every precondition violation panics, as the
duplicate-index counterexample shows. -/
theorem retain_totality :
    (∀ (items : List Envelope) (content : Transmission),
        (content.errors.filter can_retry_item).Pairwise (fun a b => a.index < b.index) →
        (∀ e ∈ content.errors.filter can_retry_item, e.index < items.length) →
        (retain_retry_items items content).isSome = true)
    ∧ (∀ (items : List Envelope) (acc rcv : Nat) (e : TransmissionItem),
        can_retry_item e = true → items.length ≤ e.index →
        retain_retry_items items { itemsAccepted := acc, itemsReceived := rcv, errors := [e] }
          = none) := by
  constructor
  · intro items content hs hb
    rw [retain_eq_spec items content hs hb]
    rfl
  · intro items acc rcv e hcr hbig
    simp [retain_retry_items, List.filter, hcr, retainGo, usizeSub,
      vecRemove_none items e.index hbig]

/-- C9 witness: `retain_totality` applied to the test fixture (total on a
well-formed body) and to a single-envelope batch with a retryable error
at index 1 (panic on an out-of-bounds index). -/
theorem retain_totality_witness :
    (retain_retry_items wItems wContent).isSome = true
    ∧ retain_retry_items [env0]
        { itemsAccepted := 0, itemsReceived := 1,
          errors := [{ index := 1, statusCode := 500, message := "y" }] } = none :=
  ⟨retain_totality.1 wItems wContent (by decide) (by decide),
   retain_totality.2 [env0] 0 1 { index := 1, statusCode := 500, message := "y" }
     (by decide) (by decide)⟩

/-- Modelled from the spec: the worker command protocol with the variants
Flush, Close and Terminate (section 3 of the spec); the concrete `Command`
enum is not part of the analysed sources. -/
inductive Command where
  | Flush : Command
  | Close : Command
  | Terminate : Command
deriving DecidableEq, Repr

/-- The mutex that wraps the command sender in memory.rs: a poison flag
plus the stored sender, identified by the generation of the channel pair
it was minted from. -/
structure MutexSender where
  poisoned : Bool
  senderGen : Nat
deriving DecidableEq, Repr

/-- State of an `InMemoryChannel` facade from memory.rs: the in-memory
queue, the optional mutex-wrapped command sender, whether the shutdown
one-shot sender and the join handle are still held (`Option::take`
semantics), whether the one-shot has been fired, and the trace of commands
pushed into the command channel. -/
structure InMemoryChannel where
  items : List Envelope
  command_sender : Option MutexSender
  shutdown_sender_present : Bool
  join_present : Bool
  shutdownFired : Bool
  sentCommands : List Command
deriving DecidableEq, Repr

/-- Translation of `TelemetryChannel::send` for `InMemoryChannel`: push
the envelope onto the lock-free queue; nothing else happens. -/
def InMemoryChannel.sendEnvelope (c : InMemoryChannel) (e : Envelope) : InMemoryChannel :=
  { c with items := c.items ++ [e] }

/-- Translation of `TelemetryChannel::flush` for `InMemoryChannel`: when
the command sender is still held, lock the mutex with `unwrap` (panicking
on poison, modelled as `none`) and push `Flush`; when the sender has been
taken the call silently does nothing. -/
def InMemoryChannel.flush (c : InMemoryChannel) : Option InMemoryChannel :=
  match c.command_sender with
  | none => some c
  | some m =>
    if m.poisoned then none
    else some { c with sentCommands := c.sentCommands ++ [Command.Flush] }

/-- Helper for the final stage of `InMemoryChannel::shutdown`: take and
await the join handle when it is still held. -/
def joinStep (c : InMemoryChannel) : InMemoryChannel :=
  if c.join_present then { c with join_present := false } else c

/-- Awaiting the join handle does not touch the command sender. -/
theorem joinStep_command_sender (c : InMemoryChannel) :
    (joinStep c).command_sender = c.command_sender := by
  unfold joinStep
  split <;> rfl

/-- After the join stage the join handle is no longer held. -/
theorem joinStep_join_false (c : InMemoryChannel) :
    (joinStep c).join_present = false := by
  unfold joinStep
  split <;> simp_all

/-- First stage of `InMemoryChannel::shutdown`: take the shutdown one-shot
sender, if still held, and fire it. -/
def fireShutdown (c : InMemoryChannel) : InMemoryChannel :=
  if c.shutdown_sender_present then
    { c with shutdown_sender_present := false, shutdownFired := true }
  else c

/-- Translation of `InMemoryChannel::shutdown`: fire the shutdown one-shot
if still held; take the command sender if still held and, locking with
`unwrap` (panic on poison, modelled as `none`), push the given command;
finally take and await the join handle if still held. -/
def InMemoryChannel.shutdown (c : InMemoryChannel) (cmd : Command) : Option InMemoryChannel :=
  match (fireShutdown c).command_sender with
  | none => some (joinStep (fireShutdown c))
  | some m =>
    if m.poisoned then none
    else
      some (joinStep { fireShutdown c with
                       command_sender := none,
                       sentCommands := (fireShutdown c).sentCommands ++ [cmd] })

/-- Firing the shutdown one-shot does not touch the command sender. -/
theorem fireShutdown_command_sender (c : InMemoryChannel) :
    (fireShutdown c).command_sender = c.command_sender := by
  unfold fireShutdown
  split <;> rfl

/-- Firing the shutdown one-shot does not touch the join handle. -/
theorem fireShutdown_join (c : InMemoryChannel) :
    (fireShutdown c).join_present = c.join_present := by
  unfold fireShutdown
  split <;> rfl

/-- Translation of `TelemetryChannel::close`: shutdown with `Close`. -/
def InMemoryChannel.close (c : InMemoryChannel) : Option InMemoryChannel :=
  c.shutdown Command.Close

/-- Translation of `TelemetryChannel::terminate`: shutdown with
`Terminate`. -/
def InMemoryChannel.terminate (c : InMemoryChannel) : Option InMemoryChannel :=
  c.shutdown Command.Terminate

/-- State of the supervisor loop in `InMemoryChannel::new`: the mutex
visible to the facade, the generation of the receiver held by the live
worker, and a counter from which fresh channel generations are minted. -/
structure SupervisorState where
  mutexSender : MutexSender
  workerReceiverGen : Nat
  freshGen : Nat
deriving DecidableEq, Repr

/-- How a spawned worker task ended: a clean return, or an abnormal end
(panic or unexpected task error). -/
inductive WorkerExit where
  | clean : WorkerExit
  | abnormal : WorkerExit
deriving DecidableEq, Repr

/-- The poison-recovering lock acquisition used by the supervisor:
`lock().unwrap_or_else` clears the poison and takes the inner value, so it
always yields the stored sender and leaves the mutex unpoisoned. -/
def lockRecoverPoison (m : MutexSender) : Nat × MutexSender :=
  (m.senderGen, { m with poisoned := false })

/-- One iteration of the supervisor loop body in `InMemoryChannel::new`
after the awaited worker task finished: a clean exit breaks the loop; an
abnormal exit breaks the loop when the shutdown one-shot has been fired,
and otherwise mints a fresh channel pair, replaces the sender stored in
the mutex (recovering poison) and re-spawns the worker with the fresh
receiver. `none` is loop exit, `some` the state for the next iteration. -/
def supervisorStep (s : SupervisorState) (ex : WorkerExit) (shutdownFired : Bool) :
    Option SupervisorState :=
  match ex with
  | .clean => none
  | .abnormal =>
    if shutdownFired then none
    else
      let g := s.freshGen + 1
      let m := (lockRecoverPoison s.mutexSender).2
      some { mutexSender := { m with senderGen := g },
             workerReceiverGen := g, freshGen := g }

/-- The facade's command channel is valid for send: the sender stored in
the mutex belongs to the same channel pair as the receiver held by the
live worker. -/
def SupervisorState.valid (s : SupervisorState) : Prop :=
  s.mutexSender.senderGen = s.workerReceiverGen

/-- C6: after an abnormal worker exit, the supervisor stops when the
shutdown one-shot has been fired; otherwise it mints a fresh channel pair,
stores its sender in the mutex and hands its receiver to the re-spawned
worker, so every state the loop continues with keeps the facade's sender
paired with the live worker's receiver. -/
theorem supervisor_restart_behavior :
    (∀ s : SupervisorState, supervisorStep s .abnormal true = none)
    ∧ (∀ s : SupervisorState, ∃ s', supervisorStep s .abnormal false = some s'
        ∧ s'.mutexSender.senderGen = s.freshGen + 1
        ∧ s'.workerReceiverGen = s.freshGen + 1
        ∧ s'.valid)
    ∧ (∀ (s : SupervisorState) (ex : WorkerExit) (b : Bool) (s' : SupervisorState),
        supervisorStep s ex b = some s' → s'.valid) := by
  refine ⟨fun s => rfl, fun s => ⟨_, rfl, rfl, rfl, rfl⟩, ?_⟩
  intro s ex b s' h
  cases ex with
  | clean => simp [supervisorStep] at h
  | abnormal =>
    cases b with
    | true => simp [supervisorStep] at h
    | false =>
      simp [supervisorStep, lockRecoverPoison] at h
      subst h
      rfl

/-- C6 witness: `supervisor_restart_behavior` applied to a concrete state:
one abnormal-exit step from generation 0 yields a valid state. -/
theorem supervisor_restart_behavior_witness :
    SupervisorState.valid { mutexSender := { poisoned := false, senderGen := 1 },
                            workerReceiverGen := 1, freshGen := 1 } :=
  supervisor_restart_behavior.2.2
    { mutexSender := { poisoned := false, senderGen := 0 },
      workerReceiverGen := 0, freshGen := 0 }
    .abnormal false _ rfl

/-- A channel whose command-sender mutex is poisoned, used to exhibit the
panic of the `unwrap`-style acquisitions. -/
def wPoisonedChannel : InMemoryChannel :=
  { items := [], command_sender := some { poisoned := true, senderGen := 0 },
    shutdown_sender_present := true, join_present := true,
    shutdownFired := false, sentCommands := [] }

/-- C7 counterexample: `flush` acquires the command-sender mutex with
`unwrap`, so on a poisoned mutex it panics instead of recovering. -/
theorem flush_poisoned_mutex_cex :
    InMemoryChannel.flush wPoisonedChannel = none := by
  decide

/-- C7 (amended): only the supervisor's acquisition of the command-sender
mutex recovers a poisoned lock (clearing the poison and taking the inner
value); the acquisitions in `flush` and in `close`/`terminate` use
`unwrap` and panic on a poisoned mutex. -/
theorem mutex_poison_recovery :
    (∀ s : SupervisorState, ∃ s', supervisorStep s .abnormal false = some s'
        ∧ s'.mutexSender.poisoned = false)
    ∧ (∀ (c : InMemoryChannel) (m : MutexSender), c.command_sender = some m →
        m.poisoned = true →
        c.flush = none ∧ ∀ cmd, c.shutdown cmd = none) := by
  constructor
  · intro s
    exact ⟨_, rfl, rfl⟩
  · intro c m hc hp
    constructor
    · simp [InMemoryChannel.flush, hc, hp]
    · intro cmd
      simp [InMemoryChannel.shutdown, fireShutdown_command_sender, hc, hp]

/-- C7 witness: `mutex_poison_recovery` applied to the poisoned channel:
its `flush` and `close` both panic. -/
theorem mutex_poison_recovery_witness :
    InMemoryChannel.flush wPoisonedChannel = none
    ∧ InMemoryChannel.shutdown wPoisonedChannel Command.Close = none := by
  have h := mutex_poison_recovery.2 wPoisonedChannel
    { poisoned := true, senderGen := 0 } rfl rfl
  exact ⟨h.1, h.2 Command.Close⟩

/-- C8: on a channel whose shutdown one-shot, unpoisoned command sender
and join handle are all still held, `close` fires the one-shot, sends
`Close` through the locked sender and awaits the join handle, leaving all
three taken; any further `close` or `terminate` finds them taken and
returns the state unchanged, performing none of those actions. -/
theorem close_idempotent (c : InMemoryChannel) (g : Nat)
    (hs : c.command_sender = some { poisoned := false, senderGen := g })
    (hsh : c.shutdown_sender_present = true)
    (hj : c.join_present = true) :
    ∃ c', c.close = some c'
      ∧ c'.shutdownFired = true
      ∧ c'.shutdown_sender_present = false
      ∧ c'.command_sender = none
      ∧ c'.join_present = false
      ∧ c'.sentCommands = c.sentCommands ++ [Command.Close]
      ∧ c'.close = some c'
      ∧ c'.terminate = some c' := by
  obtain ⟨items, cs, ssp, jp, sf, sc⟩ := c
  simp only at hs hsh hj
  subst hs hsh hj
  refine ⟨{ items := items, command_sender := none, shutdown_sender_present := false,
            join_present := false, shutdownFired := true,
            sentCommands := sc ++ [Command.Close] }, ?_, rfl, rfl, rfl, rfl, rfl, ?_, ?_⟩
  · simp [InMemoryChannel.close, InMemoryChannel.shutdown, fireShutdown, joinStep]
  · simp [InMemoryChannel.close, InMemoryChannel.shutdown, fireShutdown, joinStep]
  · simp [InMemoryChannel.terminate, InMemoryChannel.shutdown, fireShutdown, joinStep]

/-- A fresh channel as built by `InMemoryChannel::new`: empty queue,
generation-0 unpoisoned sender, one-shot and join handle held. -/
def wFreshChannel : InMemoryChannel :=
  { items := [], command_sender := some { poisoned := false, senderGen := 0 },
    shutdown_sender_present := true, join_present := true,
    shutdownFired := false, sentCommands := [] }

/-- C8 witness: `close_idempotent` applied to the fresh channel. -/
theorem close_idempotent_witness :
    ∃ c', InMemoryChannel.close wFreshChannel = some c'
      ∧ c'.shutdownFired = true
      ∧ c'.shutdown_sender_present = false
      ∧ c'.command_sender = none
      ∧ c'.join_present = false
      ∧ c'.sentCommands = wFreshChannel.sentCommands ++ [Command.Close]
      ∧ c'.close = some c'
      ∧ c'.terminate = some c' :=
  close_idempotent wFreshChannel 0 rfl rfl rfl

/-- C10: any state `shutdown` (hence `close` or `terminate`) returns has
the command sender and the join handle taken; on such a state `flush`
silently does nothing (no panic, no `Flush` command), while `sendEnvelope`
still appends the envelope to the in-memory queue, where no worker remains
to transmit it. -/
theorem flush_after_shutdown_noop (c c' : InMemoryChannel) (cmd : Command) (e : Envelope)
    (h : c.shutdown cmd = some c') :
    c'.command_sender = none
    ∧ c'.join_present = false
    ∧ c'.flush = some c'
    ∧ (c'.sendEnvelope e).items = c'.items ++ [e]
    ∧ (c'.sendEnvelope e).sentCommands = c'.sentCommands := by
  have hcs : c'.command_sender = none ∧ c'.join_present = false := by
    simp only [InMemoryChannel.shutdown] at h
    split at h
    · rename_i heq
      simp only [Option.some.injEq] at h
      subst h
      exact ⟨(joinStep_command_sender _).trans heq, joinStep_join_false _⟩
    · rename_i m heq
      by_cases hp : m.poisoned = true
      · rw [if_pos hp] at h
        exact absurd h (by simp)
      · rw [if_neg hp] at h
        simp only [Option.some.injEq] at h
        subst h
        exact ⟨(joinStep_command_sender _).trans rfl, joinStep_join_false _⟩
  refine ⟨hcs.1, hcs.2, ?_, rfl, rfl⟩
  simp [InMemoryChannel.flush, hcs.1]

/-- The closed fresh channel: what `shutdown Close` leaves of the fresh
channel. -/
def wClosedChannel : InMemoryChannel :=
  { items := [], command_sender := none, shutdown_sender_present := false,
    join_present := false, shutdownFired := true, sentCommands := [Command.Close] }

/-- C10 witness: `flush_after_shutdown_noop` on the concrete closed fresh
channel. -/
theorem flush_after_shutdown_noop_witness :
    InMemoryChannel.flush wClosedChannel = some wClosedChannel :=
  (flush_after_shutdown_noop wFreshChannel wClosedChannel Command.Close env0 (by decide)).2.2.1

end AppInsights
